import Mathlib

/-!
# Azure/iot-central-aad-app: `src/App.js`

A shallow embedding of the token broker (`getAccessTokenForScope`), the API
invoker (`callAPI`), the `usePromise` helper and the view state of the `App`
component, followed by the theorems about them.

Conventions of the embedding.

* A JavaScript promise is represented by the way it settles (`Settled`):
  resolved with a value, rejected with an error, or never settled.
* Every call that leaves the program (to the MSAL client, to axios, to
  `alert`, to the browser storage) is appended to an event log.  The answer of
  a library call is a function of the log at the moment of the call and of the
  arguments, so a library may answer differently on each call.
* `undefined` / `null` for an optional object is `none`; an object is `some`.
  Objects are truthy in JavaScript, so `if (account)` is the test "is `some`".
-/

namespace IotCentralAadApp

/-! ## Data model -/

/-- A thrown or rejected JavaScript error value. -/
abbrev JsError := String

/-- The account object of the identity library (an object, hence truthy). -/
structure AccountInfo where
  homeAccountId : String
  deriving DecidableEq, Repr

/-- The token result of the identity library; the program reads `accessToken`
and `account` (which the library leaves `null` when it has none). -/
structure AuthenticationResult where
  accessToken : String
  account : Option AccountInfo
  deriving DecidableEq, Repr

/-- The `tokenRequest` object built at `App.js:15-21`; `account = none` means the
object has no `account` property. -/
structure TokenRequest where
  scopes : List String
  forceRefresh : Bool
  redirectUri : String
  account : Option AccountInfo
  deriving DecidableEq, Repr

/-- How a promise settles. -/
inductive Settled (α : Type) where
  | resolved (value : α)
  | rejected (err : JsError)
  | pending
  deriving DecidableEq, Repr

/-- A value that may be JavaScript `null` or `undefined`. -/
inductive JsValue (α : Type) where
  | null
  | undefined
  | value (a : α)
  deriving DecidableEq, Repr

/-- The argument given to `alert`. -/
inductive AlertArg where
  | error (err : JsError)
  | json (err : JsError)
  | text (msg : String)
  deriving DecidableEq, Repr

/-- The `auth` and `cache` configuration given to `new msal.PublicClientApplication`. -/
structure Configuration where
  clientId : String
  authority : String
  cacheLocation : String
  storeAuthStateInCookie : Bool
  deriving DecidableEq, Repr

/-- The calls that leave the program, in the order they are made;
`uncaughtError` is an exception that escapes an event handler. -/
inductive Event where
  | newPublicClientApplication (config : Configuration)
  | getAllAccounts
  | acquireTokenSilent (req : TokenRequest)
  | acquireTokenPopup (req : TokenRequest)
  | axios (url : String) (headers : List (String × String))
  | alert (arg : AlertArg)
  | localStorageClear
  | sessionStorageClear
  | logout
  | uncaughtError (err : JsError)
  deriving DecidableEq, Repr

/-- An MSAL client instance: each method answers from the log so far and its argument. -/
structure PublicClientApplication where
  acquireTokenSilent : List Event → TokenRequest → Settled AuthenticationResult
  acquireTokenPopup : List Event → TokenRequest → Settled AuthenticationResult
  getAllAccounts : List Event → List AccountInfo

/-- The body of a successful HTTP response. -/
structure HttpResponse where
  status : Nat
  data : String
  deriving DecidableEq, Repr

/-- The `scope` argument: a single string or an array of strings. -/
inductive ScopeArg where
  | one (scope : String)
  | many (scopes : List String)
  deriving DecidableEq, Repr

/-- The constant `Scopes` of `App.js:7-11`. -/
structure ScopesTable where
  Graph : String
  Central : String
  ARM : String

/-- The three fixed permission identifiers. -/
def Scopes : ScopesTable :=
  { Graph := "User.Read"
    Central := "https://apps.azureiotcentral.com/user_impersonation"
    ARM := "https://management.azure.com/user_impersonation" }

/-! ## Token broker (`App.js:14-38`) -/

/-- The `tokenRequest` of `getAccessTokenForScope` (`App.js:15-21`). -/
def tokenRequestOf (scope : ScopeArg) (account : Option AccountInfo) : TokenRequest :=
  let tokenRequest : TokenRequest :=
    { scopes := match scope with
        | ScopeArg.many scopes => scopes
        | ScopeArg.one s => [s]
      forceRefresh := false
      redirectUri := "http://localhost:4001"
      account := none }
  match account with
  | some a => { tokenRequest with account := some a }
  | none => tokenRequest

/-- The function `getAccessTokenForScope` (`App.js:14-38`): the silent attempt,
then, on its rejection only, the popup.  Returns how the promise settles and
the extended log. -/
def getAccessTokenForScope (msalInstance : PublicClientApplication) (scope : ScopeArg)
    (account : Option AccountInfo) (log : List Event) :
    Settled AuthenticationResult × List Event :=
  let tokenRequest := tokenRequestOf scope account
  let log1 := log ++ [Event.acquireTokenSilent tokenRequest]
  match msalInstance.acquireTokenSilent log tokenRequest with
  | Settled.resolved res => (Settled.resolved res, log1)
  | Settled.pending => (Settled.pending, log1)
  | Settled.rejected _ =>
    let log2 := log1 ++ [Event.acquireTokenPopup tokenRequest]
    match msalInstance.acquireTokenPopup log1 tokenRequest with
    | Settled.resolved res => (Settled.resolved res, log2)
    | Settled.rejected err => (Settled.rejected err, log2)
    | Settled.pending => (Settled.pending, log2)

/-- The requests given to `acquireTokenPopup`, in order. -/
def popupCalls : List Event → List TokenRequest
  | [] => []
  | Event.acquireTokenPopup req :: rest => req :: popupCalls rest
  | _ :: rest => popupCalls rest

/-- The requests given to `acquireTokenSilent`, in order. -/
def silentCalls : List Event → List TokenRequest
  | [] => []
  | Event.acquireTokenSilent req :: rest => req :: silentCalls rest
  | _ :: rest => silentCalls rest

/-- The HTTP requests issued through axios, in order. -/
def httpCalls : List Event → List (String × List (String × String))
  | [] => []
  | Event.axios url headers :: rest => (url, headers) :: httpCalls rest
  | _ :: rest => httpCalls rest

/-! ## API invoker (`App.js:41-50`) and `usePromise` (`App.js:53-71`) -/

/-- The axios function: answers from the log so far, the url and the headers.
A network failure or a status outside 2xx is a rejection. -/
abbrev Axios := List Event → String → List (String × String) → Settled HttpResponse

/-- The function `callAPI` (`App.js:41-50`).  The `catch` block alerts the error
and falls off the end of the function, so the promise resolves with `undefined`. -/
def callAPI (axios : Axios) (instance_ : PublicClientApplication) (scope : ScopeArg)
    (url : String) (account : Option AccountInfo) (log : List Event) :
    Settled (JsValue HttpResponse) × List Event :=
  match getAccessTokenForScope instance_ scope account log with
  | (Settled.resolved tok, log1) =>
    let headers := [("Authorization", "Bearer " ++ tok.accessToken)]
    let log2 := log1 ++ [Event.axios url headers]
    match axios log1 url headers with
    | Settled.resolved res => (Settled.resolved (JsValue.value res), log2)
    | Settled.rejected err => (Settled.resolved JsValue.undefined, log2 ++ [Event.alert (AlertArg.error err)])
    | Settled.pending => (Settled.pending, log2)
  | (Settled.rejected err, log1) =>
    (Settled.resolved JsValue.undefined, log1 ++ [Event.alert (AlertArg.error err)])
  | (Settled.pending, log1) => (Settled.pending, log1)

/-- The three state cells of one `usePromise` hook. -/
structure PromiseState where
  loading : Bool
  data : JsValue HttpResponse
  error : Option JsError
  deriving DecidableEq, Repr

/-- The state of a `usePromise` hook before `callPromise` has run (`App.js:54-56`). -/
def PromiseState.initial : PromiseState :=
  { loading := false, data := JsValue.null, error := none }

/-- The function `callPromise` (`App.js:58-69`), given how `promiseFn()` settles: the
three cells after `setLoading(true); setData(null); setError(null)` and the
continuation.  A promise that never settles leaves the hook loading. -/
def callPromise (promiseFn : List Event → Settled (JsValue HttpResponse) × List Event)
    (log : List Event) : PromiseState × List Event :=
  match promiseFn log with
  | (Settled.resolved res, log1) => ({ loading := false, data := res, error := none }, log1)
  | (Settled.rejected err, log1) => ({ loading := false, data := JsValue.null, error := some err }, log1)
  | (Settled.pending, log1) => ({ loading := true, data := JsValue.null, error := none }, log1)

/-! ## Status line and `indexOf` (`App.js:171-173`, `App.js:276`) -/

/-- The `span` that `showStatus` renders: its class and its text. -/
inductive StatusSpan where
  | success (text : String)
  | error (text : String)
  deriving DecidableEq, Repr

/-- The function `showStatus` (`App.js:171-173`). -/
def showStatus (condition : Bool) (success error : String) : StatusSpan :=
  if condition then StatusSpan.success success else StatusSpan.error error

/-- The search of `String.prototype.indexOf`: the first position at or after `k`
at which `pat` starts, counted from `k`, or `-1`. -/
def indexOfFrom (pat : List Char) : List Char → Nat → Int
  | [], k => if pat.isPrefixOf [] then (k : Int) else -1
  | c :: cs, k => if pat.isPrefixOf (c :: cs) then (k : Int) else indexOfFrom pat cs (k + 1)

/-- The method `String.prototype.indexOf(searchString)`.  Strings are compared
character by character; for the ASCII patterns of `App.js:276` an occurrence
among the characters is an occurrence among the UTF-16 code units and conversely. -/
def indexOf (s searchString : String) : Int :=
  indexOfFrom searchString.data s.data 0

/-- The condition of the host status line (`App.js:276`). -/
def appHostDefined (appHost : String) : Bool :=
  appHost != "" && decide (indexOf appHost ".com" ≥ 0) &&
    decide (indexOf appHost "azureiotcentral" ≥ 0)

/-- The host status line (`App.js:276`). -/
def appHostStatus (appHost : String) : StatusSpan :=
  showStatus (appHostDefined appHost) "Application host defined" "No application host defined"

/-- The string `s` contains `pat` as a substring: the characters of `pat` are a
contiguous part of the characters of `s`. -/
def ContainsSubstring (s pat : String) : Prop :=
  pat.data <:+: s.data

instance (s pat : String) : Decidable (ContainsSubstring s pat) :=
  List.decidableInfix pat.data s.data

/-! ## View state of `App` (`App.js:74-119`) -/

/-- The value given to `setInstance` (`App.js:133`). -/
structure Instance where
  msal : PublicClientApplication
  cachedAccounts : List AccountInfo

/-- The value given to `setAccount` (`App.js:139`). -/
structure Account where
  graphToken : AuthenticationResult
  deriving DecidableEq, Repr

/-- The value given to `setCentral` (`App.js:149`). -/
structure Central where
  centralAccessToken : AuthenticationResult
  deriving DecidableEq, Repr

/-- The value given to `setArm` (`App.js:156`). -/
structure Arm where
  armAccessToken : AuthenticationResult
  deriving DecidableEq, Repr

/-- The state cells of the `App` component; `none` is `undefined`. -/
structure ViewState where
  tenantId : String
  clientId : String
  instance_ : Option Instance
  account : Option Account
  central : Option Central
  arm : Option Arm
  toggles : List (String × Bool)
  injectAccount : Bool
  subscriptionId : String
  appHost : String
  me : PromiseState
  templates : PromiseState
  devices : PromiseState
  subscriptions : PromiseState
  tenants : PromiseState
  apps : PromiseState

/-- The state of the first render (`App.js:77-144`). -/
def ViewState.initial : ViewState :=
  { tenantId := ""
    clientId := ""
    instance_ := none
    account := none
    central := none
    arm := none
    toggles := []
    injectAccount := false
    subscriptionId := ""
    appHost := ""
    me := PromiseState.initial
    templates := PromiseState.initial
    devices := PromiseState.initial
    subscriptions := PromiseState.initial
    tenants := PromiseState.initial
    apps := PromiseState.initial }

/-- The view state together with the log of the calls made so far. -/
structure World where
  view : ViewState
  log : List Event

/-- The world of the first render. -/
def World.initial : World :=
  { view := ViewState.initial, log := [] }

/-- The libraries the component imports: axios and the MSAL constructor. -/
structure Env where
  axios : Axios
  newPublicClientApplication : List Event → Configuration → Except JsError PublicClientApplication

/-- The error of reading a property of `undefined`. -/
def typeError (property : String) : JsError :=
  "TypeError: Cannot read properties of undefined (reading '" ++ property ++ "')"

/-- The expression `injectAccount ? account.graphToken.account : null`. -/
def accountArg (st : ViewState) : Except JsError (Option AccountInfo) :=
  if st.injectAccount then
    match st.account with
    | some acc => Except.ok acc.graphToken.account
    | none => Except.error (typeError "graphToken")
  else Except.ok none

/-- The shape shared by `getGraphToken`, `getCentralToken` and `getArmToken`
(`App.js:137-158`): the arguments are evaluated, `getAccessTokenForScope` is
called, its result is stored on success and alerted as JSON on failure. -/
def acquireAndStore (w : World) (scope : String)
    (store : AuthenticationResult → ViewState → ViewState) : World :=
  match w.view.instance_ with
  | none => { view := w.view, log := w.log ++ [Event.uncaughtError (typeError "msal")] }
  | some inst =>
    match accountArg w.view with
    | Except.error err => { view := w.view, log := w.log ++ [Event.uncaughtError err] }
    | Except.ok account =>
      match getAccessTokenForScope inst.msal (ScopeArg.one scope) account w.log with
      | (Settled.resolved res, log1) => { view := store res w.view, log := log1 }
      | (Settled.rejected err, log1) =>
        { view := w.view, log := log1 ++ [Event.alert (AlertArg.json err)] }
      | (Settled.pending, log1) => { view := w.view, log := log1 }

/-- The handler `getGraphToken` (`App.js:137-141`). -/
def getGraphToken (w : World) : World :=
  acquireAndStore w Scopes.Graph (fun res st => { st with account := some { graphToken := res } })

/-- The handler `getCentralToken` (`App.js:147-151`). -/
def getCentralToken (w : World) : World :=
  acquireAndStore w Scopes.Central
    (fun res st => { st with central := some { centralAccessToken := res } })

/-- The handler `getArmToken` (`App.js:154-158`). -/
def getArmToken (w : World) : World :=
  acquireAndStore w Scopes.ARM (fun res st => { st with arm := some { armAccessToken := res } })

/-- The `promiseFn` of the six `usePromise` hooks (`App.js:92-119`): the arguments
of `callAPI` are evaluated first, and a `TypeError` there rejects. -/
def promiseFnOf (env : Env) (st : ViewState) (scope : String) (url : String)
    (log : List Event) : Settled (JsValue HttpResponse) × List Event :=
  match st.instance_ with
  | none => (Settled.rejected (typeError "msal"), log)
  | some inst =>
    match accountArg st with
    | Except.error err => (Settled.rejected err, log)
    | Except.ok account => callAPI env.axios inst.msal (ScopeArg.one scope) url account log

/-- The handler `updateClient` (`App.js:122-134`). -/
def updateClient (env : Env) (w : World) : World :=
  let config : Configuration :=
    { clientId := w.view.clientId
      authority := "https://login.microsoftonline.com/" ++ w.view.tenantId
      cacheLocation := "sessionStorage"
      storeAuthStateInCookie := false }
  let log1 := w.log ++ [Event.newPublicClientApplication config]
  match env.newPublicClientApplication w.log config with
  | Except.error err => { view := w.view, log := log1 ++ [Event.uncaughtError err] }
  | Except.ok client =>
    { view := { w.view with
                instance_ := some { msal := client, cachedAccounts := client.getAllAccounts log1 } }
      log := log1 ++ [Event.getAllAccounts] }

/-- The handler `clearStorage` (`App.js:161-165`). -/
def clearStorage (w : World) : World :=
  { view := w.view
    log := w.log ++ [Event.localStorageClear, Event.sessionStorageClear,
      Event.alert (AlertArg.text
        "Session and local storage cleared. Please shutdown and re-launch the browser")] }

/-- The click handler of the sign-out button, `signOut(instance.msal)`
(`App.js:167-169`, `App.js:231`).  The handler itself writes no state cell.  The
library's `logout()` it calls clears the library's cache and navigates the
window to the end-session endpoint, so the component is torn down and the page
comes back as a first render: every state cell has its initial value again. -/
def signOut (w : World) : World :=
  match w.view.instance_ with
  | none => { view := w.view, log := w.log ++ [Event.uncaughtError (typeError "msal")] }
  | some _ => { view := ViewState.initial, log := w.log ++ [Event.logout] }

/-- The handler `toggle` (`App.js:185-189`); a missing key reads as `undefined`. -/
def toggle (st : ViewState) (key : String) : ViewState :=
  let current := (st.toggles.lookup key).getD false
  { st with toggles := (key, if current then !current else true) :: st.toggles }

/-- The six fetch buttons. -/
inductive Fetch where
  | me
  | templates
  | devices
  | subscription
  | tenants
  | apps
  deriving DecidableEq, Repr

/-- The scope of each fetch (`App.js:92-119`). -/
def Fetch.scope : Fetch → String
  | Fetch.me => Scopes.Graph
  | Fetch.templates => Scopes.Central
  | Fetch.devices => Scopes.Central
  | Fetch.subscription => Scopes.ARM
  | Fetch.tenants => Scopes.ARM
  | Fetch.apps => Scopes.ARM

/-- The url of each fetch (`App.js:92-119`). -/
def Fetch.url (st : ViewState) : Fetch → String
  | Fetch.me => "https://graph.microsoft.com/v1.0/me"
  | Fetch.templates => "https://" ++ st.appHost ++ "/api/preview/deviceTemplates"
  | Fetch.devices => "https://" ++ st.appHost ++ "/api/preview/devices"
  | Fetch.subscription => "https://management.azure.com/subscriptions?api-version=2020-01-01"
  | Fetch.tenants => "https://management.azure.com/tenants?api-version=2020-01-01"
  | Fetch.apps => "https://management.azure.com/subscriptions/" ++ st.subscriptionId ++
      "/providers/Microsoft.IoTCentral/IoTApps?api-version=2018-09-01"

/-- The hook cell each fetch writes. -/
def Fetch.store (st : ViewState) (p : PromiseState) : Fetch → ViewState
  | Fetch.me => { st with me := p }
  | Fetch.templates => { st with templates := p }
  | Fetch.devices => { st with devices := p }
  | Fetch.subscription => { st with subscriptions := p }
  | Fetch.tenants => { st with tenants := p }
  | Fetch.apps => { st with apps := p }

/-- The click handler of a fetch button: `callPromise` of its hook. -/
def fetch (env : Env) (w : World) (f : Fetch) : World :=
  let r := callPromise (promiseFnOf env w.view f.scope (f.url w.view)) w.log
  { view := f.store w.view r.1, log := r.2 }

/-- The user actions of the page. -/
inductive Action where
  | setClientId (value : String)
  | setTenantId (value : String)
  | updateClient
  | clearStorage
  | signOut
  | getGraphToken
  | setInjectAccount (checked : Bool)
  | getCentralToken
  | setAppHost (value : String)
  | getArmToken
  | setSubscriptionId (value : String)
  | fetch (f : Fetch)
  | toggle (key : String)
  deriving DecidableEq, Repr

/-- The `disabled` attribute of the control of each action (`App.js:218-333`). -/
def disabled (st : ViewState) : Action → Bool
  | Action.setClientId _ => false
  | Action.setTenantId _ => false
  | Action.updateClient => false
  | Action.clearStorage => false
  | Action.signOut => st.instance_.isNone
  | Action.getGraphToken => st.instance_.isNone
  | Action.setInjectAccount _ => st.account.isNone
  | Action.getCentralToken => st.instance_.isNone
  | Action.setAppHost _ => false
  | Action.getArmToken => st.instance_.isNone
  | Action.setSubscriptionId _ => st.arm.isNone
  | Action.fetch Fetch.me => st.account.isNone
  | Action.fetch Fetch.templates => st.instance_.isNone || st.central.isNone || st.appHost == ""
  | Action.fetch Fetch.devices => st.instance_.isNone || st.central.isNone || st.appHost == ""
  | Action.fetch Fetch.subscription => st.arm.isNone
  | Action.fetch Fetch.tenants => st.arm.isNone
  | Action.fetch Fetch.apps => st.arm.isNone || st.subscriptionId == ""
  | Action.toggle _ => false

/-- The handler of each action. -/
def perform (env : Env) (w : World) : Action → World
  | Action.setClientId value => { w with view := { w.view with clientId := value } }
  | Action.setTenantId value => { w with view := { w.view with tenantId := value } }
  | Action.updateClient => updateClient env w
  | Action.clearStorage => clearStorage w
  | Action.signOut => signOut w
  | Action.getGraphToken => getGraphToken w
  | Action.setInjectAccount checked => { w with view := { w.view with injectAccount := checked } }
  | Action.getCentralToken => getCentralToken w
  | Action.setAppHost value => { w with view := { w.view with appHost := value } }
  | Action.getArmToken => getArmToken w
  | Action.setSubscriptionId value => { w with view := { w.view with subscriptionId := value } }
  | Action.fetch f => fetch env w f
  | Action.toggle key => { w with view := toggle w.view key }

/-- One user action: a disabled control cannot be operated, and the handler of an
enabled one runs until the promise it started has settled (or is left pending). -/
def step (env : Env) (w : World) (a : Action) : Option World :=
  if disabled w.view a then none else some (perform env w a)

/-- The worlds reachable from the first render by user actions. -/
inductive Reachable (env : Env) : World → Prop where
  | initial : Reachable env World.initial
  | action (w w2 : World) (a : Action) :
      Reachable env w → step env w a = some w2 → Reachable env w2

/-- The token-acquisition actions and the API-fetch actions. -/
def Action.isTokenOrFetch : Action → Bool
  | Action.getGraphToken => true
  | Action.getCentralToken => true
  | Action.getArmToken => true
  | Action.fetch _ => true
  | _ => false

/-! ## Sample libraries -/

/-- A sample account. -/
def sampleAccount : AccountInfo :=
  { homeAccountId := "00000000-0000-0000-0000-000000000001" }

/-- A sample token result carrying `sampleAccount`. -/
def sampleToken : AuthenticationResult :=
  { accessToken := "eyJ0", account := some sampleAccount }

/-- A client with a cached session: the silent attempt resolves. -/
def cachedClient : PublicClientApplication :=
  { acquireTokenSilent := fun _ _ => Settled.resolved sampleToken
    acquireTokenPopup := fun _ _ => Settled.rejected "popup_window_error"
    getAllAccounts := fun _ => [sampleAccount] }

/-- A client without a cached session whose popup succeeds. -/
def popupClient : PublicClientApplication :=
  { acquireTokenSilent := fun _ _ => Settled.rejected "no_tokens_found"
    acquireTokenPopup := fun _ _ => Settled.resolved sampleToken
    getAllAccounts := fun _ => [] }

/-- A client for which both attempts are rejected. -/
def failingClient : PublicClientApplication :=
  { acquireTokenSilent := fun _ _ => Settled.rejected "no_tokens_found"
    acquireTokenPopup := fun _ _ => Settled.rejected "user_cancelled"
    getAllAccounts := fun _ => [] }

/-- An axios that answers every request with status 200. -/
def okAxios : Axios :=
  fun _ _ _ => Settled.resolved { status := 200, data := "{}" }

/-- An axios that rejects every request (the server answered 401). -/
def failingAxios : Axios :=
  fun _ _ _ => Settled.rejected "Request failed with status code 401"

/-- Libraries whose MSAL constructor returns `cachedClient`. -/
def sampleEnv : Env :=
  { axios := okAxios
    newPublicClientApplication := fun _ _ => Except.ok cachedClient }

/-- The world after: create instance, acquire the Graph token, tick "inject account". -/
def injectingWorld : World :=
  perform sampleEnv
    (perform sampleEnv (perform sampleEnv World.initial Action.updateClient) Action.getGraphToken)
    (Action.setInjectAccount true)

/-- The world after: type a client id, nothing else. -/
def typedWorld : World :=
  perform sampleEnv World.initial (Action.setClientId "f095895b-0529-4839-af23-58eb3aa12a54")

/-- The world after: create instance, acquire the Central token, type the host `localhost`. -/
def localhostWorld : World :=
  perform sampleEnv
    (perform sampleEnv (perform sampleEnv World.initial Action.updateClient)
      Action.getCentralToken)
    (Action.setAppHost "localhost")

/-- The world after: create instance. -/
def createdWorld : World :=
  perform sampleEnv World.initial Action.updateClient

/-- The world after: create instance, sign out. -/
def signedOutWorld : World :=
  perform sampleEnv createdWorld Action.signOut

/-- The world after: create instance, clear storage. -/
def clearedWorld : World :=
  perform sampleEnv createdWorld Action.clearStorage

/-- Every token result held by the view was stored while a client instance existed:
without an instance there is no account, no Central token and no ARM token. -/
def tokensNeedInstance (st : ViewState) : Bool :=
  st.instance_.isSome || (st.account.isNone && st.central.isNone && st.arm.isNone)

/-! ## Lemmas on the event log -/

theorem popupCalls_append (xs ys : List Event) :
    popupCalls (xs ++ ys) = popupCalls xs ++ popupCalls ys := by
  induction xs with
  | nil => rfl
  | cons x xs ih => cases x <;> simp [popupCalls, ih]

theorem silentCalls_append (xs ys : List Event) :
    silentCalls (xs ++ ys) = silentCalls xs ++ silentCalls ys := by
  induction xs with
  | nil => rfl
  | cons x xs ih => cases x <;> simp [silentCalls, ih]

theorem httpCalls_append (xs ys : List Event) :
    httpCalls (xs ++ ys) = httpCalls xs ++ httpCalls ys := by
  induction xs with
  | nil => rfl
  | cons x xs ih => cases x <;> simp [httpCalls, ih]

/-- The broker issues no HTTP request. -/
theorem httpCalls_getAccessTokenForScope (m : PublicClientApplication) (scope : ScopeArg)
    (account : Option AccountInfo) (log : List Event) :
    httpCalls (getAccessTokenForScope m scope account log).2 = httpCalls log := by
  unfold getAccessTokenForScope
  cases hs : m.acquireTokenSilent log (tokenRequestOf scope account) with
  | resolved res => simp [hs, httpCalls_append, httpCalls]
  | pending => simp [hs, httpCalls_append, httpCalls]
  | rejected e =>
    cases hp : m.acquireTokenPopup
        (log ++ [Event.acquireTokenSilent (tokenRequestOf scope account)])
        (tokenRequestOf scope account) <;>
      simp [hs, hp, httpCalls_append, httpCalls]

/-! ## The token broker -/

/-- C1: when the silent acquisition resolves with `r`, `getAccessTokenForScope`
resolves with exactly `r`, the only call it makes is the silent one, and the
popup is invoked zero times (the popup calls of the log are those from before). -/
theorem getAccessTokenForScope_silent_resolved (m : PublicClientApplication)
    (scope : ScopeArg) (account : Option AccountInfo) (log : List Event)
    (r : AuthenticationResult)
    (h : m.acquireTokenSilent log (tokenRequestOf scope account) = Settled.resolved r) :
    (getAccessTokenForScope m scope account log).1 = Settled.resolved r ∧
    (getAccessTokenForScope m scope account log).2 =
      log ++ [Event.acquireTokenSilent (tokenRequestOf scope account)] ∧
    popupCalls (getAccessTokenForScope m scope account log).2 = popupCalls log := by
  unfold getAccessTokenForScope
  simp [h, popupCalls_append, popupCalls]

/-- Witness of C1: a client with a cached session, asked for the Graph scope. -/
theorem getAccessTokenForScope_silent_resolved_witness :
    (getAccessTokenForScope cachedClient (ScopeArg.one Scopes.Graph) none []).1 =
      Settled.resolved sampleToken ∧
    (getAccessTokenForScope cachedClient (ScopeArg.one Scopes.Graph) none []).2 =
      [] ++ [Event.acquireTokenSilent (tokenRequestOf (ScopeArg.one Scopes.Graph) none)] ∧
    popupCalls (getAccessTokenForScope cachedClient (ScopeArg.one Scopes.Graph) none []).2 =
      popupCalls [] :=
  getAccessTokenForScope_silent_resolved cachedClient (ScopeArg.one Scopes.Graph) none []
    sampleToken rfl

/-- C2: when the silent acquisition is rejected, `getAccessTokenForScope` invokes
`acquireTokenPopup` exactly once, with the very request given to the silent
attempt, and when the popup resolves with `r` it resolves with exactly `r`. -/
theorem getAccessTokenForScope_silent_rejected (m : PublicClientApplication)
    (scope : ScopeArg) (account : Option AccountInfo) (log : List Event) (e : JsError)
    (h : m.acquireTokenSilent log (tokenRequestOf scope account) = Settled.rejected e) :
    (getAccessTokenForScope m scope account log).2 =
      log ++ [Event.acquireTokenSilent (tokenRequestOf scope account),
              Event.acquireTokenPopup (tokenRequestOf scope account)] ∧
    silentCalls (getAccessTokenForScope m scope account log).2 =
      silentCalls log ++ [tokenRequestOf scope account] ∧
    popupCalls (getAccessTokenForScope m scope account log).2 =
      popupCalls log ++ [tokenRequestOf scope account] ∧
    ∀ r, m.acquireTokenPopup (log ++ [Event.acquireTokenSilent (tokenRequestOf scope account)])
          (tokenRequestOf scope account) = Settled.resolved r →
      (getAccessTokenForScope m scope account log).1 = Settled.resolved r := by
  unfold getAccessTokenForScope
  cases hp : m.acquireTokenPopup (log ++ [Event.acquireTokenSilent (tokenRequestOf scope account)])
      (tokenRequestOf scope account) <;>
    simp [h, hp, popupCalls_append, popupCalls, silentCalls_append, silentCalls]

/-- Witness of C2: a client without a cached session whose popup succeeds. -/
theorem getAccessTokenForScope_silent_rejected_witness :
    popupCalls (getAccessTokenForScope popupClient (ScopeArg.many ["User.Read", "openid"])
        (some sampleAccount) []).2 =
      [tokenRequestOf (ScopeArg.many ["User.Read", "openid"]) (some sampleAccount)] ∧
    (getAccessTokenForScope popupClient (ScopeArg.many ["User.Read", "openid"])
        (some sampleAccount) []).1 = Settled.resolved sampleToken :=
  ⟨(getAccessTokenForScope_silent_rejected popupClient (ScopeArg.many ["User.Read", "openid"])
      (some sampleAccount) [] "no_tokens_found" rfl).2.2.1,
   (getAccessTokenForScope_silent_rejected popupClient (ScopeArg.many ["User.Read", "openid"])
      (some sampleAccount) [] "no_tokens_found" rfl).2.2.2 sampleToken rfl⟩

/-- C3: `getAccessTokenForScope` is rejected if and only if the silent acquisition is
rejected and the popup that follows it is rejected; the error it is rejected
with is then the popup's error, whatever the silent attempt's error was. -/
theorem getAccessTokenForScope_rejected_iff (m : PublicClientApplication)
    (scope : ScopeArg) (account : Option AccountInfo) (log : List Event) (e : JsError) :
    (getAccessTokenForScope m scope account log).1 = Settled.rejected e ↔
      (∃ e1, m.acquireTokenSilent log (tokenRequestOf scope account) = Settled.rejected e1) ∧
      m.acquireTokenPopup (log ++ [Event.acquireTokenSilent (tokenRequestOf scope account)])
        (tokenRequestOf scope account) = Settled.rejected e := by
  unfold getAccessTokenForScope
  cases hs : m.acquireTokenSilent log (tokenRequestOf scope account) with
  | resolved res => simp [hs]
  | pending => simp [hs]
  | rejected e1 =>
    cases hp : m.acquireTokenPopup
        (log ++ [Event.acquireTokenSilent (tokenRequestOf scope account)])
        (tokenRequestOf scope account) <;> simp [hs, hp]

/-- Witness of C3: both attempts are rejected and the popup's error is the one reported. -/
theorem getAccessTokenForScope_rejected_iff_witness :
    (getAccessTokenForScope failingClient (ScopeArg.one Scopes.ARM) none []).1 =
      Settled.rejected "user_cancelled" :=
  (getAccessTokenForScope_rejected_iff failingClient (ScopeArg.one Scopes.ARM) none []
    "user_cancelled").2 ⟨⟨"no_tokens_found", rfl⟩, rfl⟩

/-! ## The API invoker -/

/-- The promise of `callAPI` is never rejected: its `catch` block handles every error. -/
theorem callAPI_never_rejected (axios : Axios) (m : PublicClientApplication) (scope : ScopeArg)
    (url : String) (account : Option AccountInfo) (log : List Event) (e : JsError) :
    (callAPI axios m scope url account log).1 ≠ Settled.rejected e := by
  unfold callAPI
  rcases hb : getAccessTokenForScope m scope account log with ⟨out, log1⟩
  cases out with
  | resolved t =>
    cases ha : axios log1 url [("Authorization", "Bearer " ++ t.accessToken)] <;> simp [ha]
  | rejected e1 => simp
  | pending => simp

/-- C4: `callAPI` issues no HTTP request unless the broker has resolved a token: when
`getAccessTokenForScope` is rejected (or never settles) the HTTP requests of the
log are those from before; when it resolves with `t`, the log is the broker's
log followed by one request to `url` whose header list is the single pair
`Authorization`, `Bearer ` followed by `t.accessToken`, and by no other request. -/
theorem callAPI_http_requests (axios : Axios) (m : PublicClientApplication) (scope : ScopeArg)
    (url : String) (account : Option AccountInfo) (log : List Event) :
    (∀ e, (getAccessTokenForScope m scope account log).1 = Settled.rejected e →
      httpCalls (callAPI axios m scope url account log).2 = httpCalls log) ∧
    ((getAccessTokenForScope m scope account log).1 = Settled.pending →
      httpCalls (callAPI axios m scope url account log).2 = httpCalls log) ∧
    (∀ t, (getAccessTokenForScope m scope account log).1 = Settled.resolved t →
      (∃ rest, (callAPI axios m scope url account log).2 =
          (getAccessTokenForScope m scope account log).2 ++
            Event.axios url [("Authorization", "Bearer " ++ t.accessToken)] :: rest ∧
          httpCalls rest = []) ∧
      httpCalls (callAPI axios m scope url account log).2 =
        httpCalls log ++ [(url, [("Authorization", "Bearer " ++ t.accessToken)])]) := by
  have hlog := httpCalls_getAccessTokenForScope m scope account log
  unfold callAPI
  rcases hb : getAccessTokenForScope m scope account log with ⟨out, log1⟩
  rw [hb] at hlog
  simp only at hlog
  cases out with
  | rejected e1 => simp [httpCalls_append, httpCalls, hlog]
  | pending => simp [hlog]
  | resolved t =>
    cases ha : axios log1 url [("Authorization", "Bearer " ++ t.accessToken)] <;>
      simp [ha, httpCalls_append, httpCalls, hlog]

/-- Witness of C4: with a cached session one request leaves, carrying the bearer header. -/
theorem callAPI_http_requests_witness :
    httpCalls (callAPI okAxios cachedClient (ScopeArg.one Scopes.Graph)
        "https://graph.microsoft.com/v1.0/me" none []).2 =
      httpCalls [] ++ [("https://graph.microsoft.com/v1.0/me",
        [("Authorization", "Bearer " ++ sampleToken.accessToken)])] :=
  ((callAPI_http_requests okAxios cachedClient (ScopeArg.one Scopes.Graph)
      "https://graph.microsoft.com/v1.0/me" none []).2.2 sampleToken rfl).2

/-- C5, as the code has it: when token acquisition is rejected with `e`, or the token
resolves and the HTTP call is rejected with `e` (a status outside 2xx included),
`callAPI` hands `e` to `alert` as its last call and resolves with `undefined`;
it is not rejected, and `callPromise` then stores `undefined` in its data cell
and leaves its error cell `null`. -/
theorem callAPI_failure_alerts (axios : Axios) (m : PublicClientApplication) (scope : ScopeArg)
    (url : String) (account : Option AccountInfo) (log : List Event) (e : JsError)
    (h : (getAccessTokenForScope m scope account log).1 = Settled.rejected e ∨
      ∃ t, (getAccessTokenForScope m scope account log).1 = Settled.resolved t ∧
        axios (getAccessTokenForScope m scope account log).2 url
          [("Authorization", "Bearer " ++ t.accessToken)] = Settled.rejected e) :
    (callAPI axios m scope url account log).1 = Settled.resolved JsValue.undefined ∧
    (∃ before, (callAPI axios m scope url account log).2 =
      before ++ [Event.alert (AlertArg.error e)]) ∧
    (callPromise (callAPI axios m scope url account) log).1 =
      { loading := false, data := JsValue.undefined, error := none } := by
  unfold callPromise callAPI
  rcases hb : getAccessTokenForScope m scope account log with ⟨out, log1⟩
  rw [hb] at h
  rcases h with h | ⟨t, ht, ha⟩
  · simp only at h
    subst h
    exact ⟨rfl, ⟨log1, rfl⟩, rfl⟩
  · simp only at ht ha
    subst ht
    simp [ha]
    exact ⟨log1 ++ [Event.axios url [("Authorization", "Bearer " ++ t.accessToken)]], by simp⟩

/-- Witness of C5 (amended): the server answers 401 to a request with a valid token. -/
theorem callAPI_failure_alerts_witness :
    (callAPI failingAxios cachedClient (ScopeArg.one Scopes.ARM)
        "https://management.azure.com/tenants?api-version=2020-01-01" none []).1 =
      Settled.resolved JsValue.undefined ∧
    (callPromise (callAPI failingAxios cachedClient (ScopeArg.one Scopes.ARM)
        "https://management.azure.com/tenants?api-version=2020-01-01" none) []).1 =
      { loading := false, data := JsValue.undefined, error := none } :=
  have h := callAPI_failure_alerts failingAxios cachedClient (ScopeArg.one Scopes.ARM)
    "https://management.azure.com/tenants?api-version=2020-01-01" none []
    "Request failed with status code 401" (Or.inr ⟨sampleToken, rfl, rfl⟩)
  ⟨h.1, h.2.2⟩

/-- C5 as stated fails: with both token attempts rejected (error `user_cancelled`),
`callAPI` is not rejected but resolves with `undefined`, and `callPromise` ends
with its error cell `null` and `undefined` in its data cell. -/
theorem callAPI_failure_not_rejected :
    (getAccessTokenForScope failingClient (ScopeArg.one Scopes.Graph) none []).1 =
      Settled.rejected "user_cancelled" ∧
    (callAPI okAxios failingClient (ScopeArg.one Scopes.Graph)
        "https://graph.microsoft.com/v1.0/me" none []).1 ≠ Settled.rejected "user_cancelled" ∧
    (callAPI okAxios failingClient (ScopeArg.one Scopes.Graph)
        "https://graph.microsoft.com/v1.0/me" none []).1 = Settled.resolved JsValue.undefined ∧
    (callPromise (callAPI okAxios failingClient (ScopeArg.one Scopes.Graph)
        "https://graph.microsoft.com/v1.0/me" none) []).1.error = none ∧
    (callPromise (callAPI okAxios failingClient (ScopeArg.one Scopes.Graph)
        "https://graph.microsoft.com/v1.0/me" none) []).1.data = JsValue.undefined :=
  ⟨rfl, by decide, rfl, rfl, rfl⟩

/-! ## The token handlers of the view -/

/-- The log of the broker: the silent call, then at most the popup call, both with
the request built from the arguments. -/
theorem getAccessTokenForScope_log (m : PublicClientApplication) (scope : ScopeArg)
    (account : Option AccountInfo) (log : List Event) :
    (getAccessTokenForScope m scope account log).2 =
        log ++ [Event.acquireTokenSilent (tokenRequestOf scope account)] ∨
    (getAccessTokenForScope m scope account log).2 =
        log ++ [Event.acquireTokenSilent (tokenRequestOf scope account),
                Event.acquireTokenPopup (tokenRequestOf scope account)] := by
  unfold getAccessTokenForScope
  cases hs : m.acquireTokenSilent log (tokenRequestOf scope account) with
  | resolved res => simp [hs]
  | pending => simp [hs]
  | rejected e =>
    cases hp : m.acquireTokenPopup
        (log ++ [Event.acquireTokenSilent (tokenRequestOf scope account)])
        (tokenRequestOf scope account) <;>
      simp [hs, hp]

/-- The log of a token handler when its arguments evaluate: the broker's log, then
at most an alert. -/
theorem acquireAndStore_log (w : World) (scope : String)
    (store : AuthenticationResult → ViewState → ViewState) (inst : Instance)
    (account : Option AccountInfo) (hinst : w.view.instance_ = some inst)
    (hacc : accountArg w.view = Except.ok account) :
    ∃ rest, (acquireAndStore w scope store).log =
        (getAccessTokenForScope inst.msal (ScopeArg.one scope) account w.log).2 ++ rest ∧
      silentCalls rest = [] ∧ popupCalls rest = [] := by
  unfold acquireAndStore
  simp only [hinst, hacc]
  rcases hb : getAccessTokenForScope inst.msal (ScopeArg.one scope) account w.log with ⟨out, log1⟩
  cases out with
  | resolved res => exact ⟨[], by simp, rfl, rfl⟩
  | rejected e => exact ⟨[Event.alert (AlertArg.json e)], rfl, rfl, rfl⟩
  | pending => exact ⟨[], by simp, rfl, rfl⟩

/-- C6: in a view state that holds a client instance and a Graph token result whose
account is `A`, the requests `getCentralToken` hands to the identity library
(first the silent call, then at most the popup call) are all the same request:
its `account` is `A` when `injectAccount` is set and it has no `account` when
it is not, and in both cases its `scopes` is the one-element list of the
data-plane scope. -/
theorem getCentralToken_request (w : World) (res : AuthenticationResult) (A : AccountInfo)
    (hinst : w.view.instance_.isSome = true)
    (hacc : w.view.account = some { graphToken := res })
    (hA : res.account = some A) :
    ∃ req : TokenRequest,
      req.account = (if w.view.injectAccount then some A else none) ∧
      req.scopes = ["https://apps.azureiotcentral.com/user_impersonation"] ∧
      req.forceRefresh = false ∧ req.redirectUri = "http://localhost:4001" ∧
      ∃ rest, (getCentralToken w).log = w.log ++ Event.acquireTokenSilent req :: rest ∧
        silentCalls rest = [] ∧ (popupCalls rest = [] ∨ popupCalls rest = [req]) := by
  obtain ⟨inst, hinst⟩ := Option.isSome_iff_exists.mp hinst
  have harg : accountArg w.view =
      Except.ok (if w.view.injectAccount then some A else none) := by
    unfold accountArg
    cases hb : w.view.injectAccount <;> simp [hacc, hA]
  obtain ⟨rest, hlog, hs, hp⟩ := acquireAndStore_log w Scopes.Central
    (fun res st => { st with central := some { centralAccessToken := res } }) inst _ hinst harg
  refine ⟨tokenRequestOf (ScopeArg.one Scopes.Central)
    (if w.view.injectAccount then some A else none), ?_, ?_, ?_, ?_, ?_⟩
  · cases w.view.injectAccount <;> rfl
  · cases w.view.injectAccount <;> rfl
  · cases w.view.injectAccount <;> rfl
  · cases w.view.injectAccount <;> rfl
  · unfold getCentralToken
    rw [hlog]
    rcases getAccessTokenForScope_log inst.msal (ScopeArg.one Scopes.Central)
        (if w.view.injectAccount then some A else none) w.log with h | h
    · exact ⟨rest, by rw [h]; simp, hs, Or.inl hp⟩
    · refine ⟨Event.acquireTokenPopup (tokenRequestOf (ScopeArg.one Scopes.Central)
          (if w.view.injectAccount then some A else none)) :: rest, by rw [h]; simp, ?_, ?_⟩
      · simpa [silentCalls] using hs
      · right
        simp [popupCalls, hp]

/-- Witness of C6: after the Graph token was acquired with `sampleAccount` and the
box was ticked, the data-plane request carries `sampleAccount`. -/
theorem getCentralToken_request_witness :
    ∃ req : TokenRequest,
      req.account = (if injectingWorld.view.injectAccount then some sampleAccount else none) ∧
      req.scopes = ["https://apps.azureiotcentral.com/user_impersonation"] ∧
      req.forceRefresh = false ∧ req.redirectUri = "http://localhost:4001" ∧
      ∃ rest, (getCentralToken injectingWorld).log =
          injectingWorld.log ++ Event.acquireTokenSilent req :: rest ∧
        silentCalls rest = [] ∧ (popupCalls rest = [] ∨ popupCalls rest = [req]) :=
  getCentralToken_request injectingWorld sampleToken sampleAccount rfl rfl rfl

/-! ## The host status line -/

/-- The search of `indexOf` answers a non-negative index exactly when the pattern
occurs in the text. -/
theorem indexOfFrom_nonneg_iff (pat : List Char) (s : List Char) (k : Nat) :
    0 ≤ indexOfFrom pat s k ↔ ∃ before after : List Char, s = before ++ pat ++ after := by
  induction s generalizing k with
  | nil =>
    unfold indexOfFrom
    by_cases hp : pat = []
    · subst hp
      simp
    · have hpre : pat.isPrefixOf [] = false := by
        cases pat with
        | nil => exact absurd rfl hp
        | cons c cs => rfl
      simp [hpre, hp]
  | cons c cs ih =>
    unfold indexOfFrom
    by_cases hpre : pat.isPrefixOf (c :: cs) = true
    · rw [if_pos hpre]
      have h := List.isPrefixOf_iff_prefix.mp hpre
      obtain ⟨t, ht⟩ := h
      constructor
      · intro _
        exact ⟨[], t, by simpa using ht.symm⟩
      · intro _
        exact Int.ofNat_nonneg k
    · rw [if_neg hpre, ih (k + 1)]
      have hnp : ¬ pat <+: c :: cs := fun h => hpre (List.isPrefixOf_iff_prefix.mpr h)
      constructor
      · rintro ⟨before, after, h⟩
        exact ⟨c :: before, after, by simp [h]⟩
      · rintro ⟨before, after, h⟩
        cases before with
        | nil => exact absurd ⟨after, by simpa using h.symm⟩ hnp
        | cons b bs =>
          simp only [List.cons_append, List.cons.injEq] at h
          exact ⟨bs, after, h.2⟩

/-- The method `indexOf` answers `>= 0` exactly for the strings that contain the pattern. -/
theorem indexOf_nonneg_iff (s pat : String) :
    indexOf s pat ≥ 0 ↔ ContainsSubstring s pat := by
  unfold indexOf ContainsSubstring
  rw [ge_iff_le, indexOfFrom_nonneg_iff pat.data s.data 0]
  constructor
  · rintro ⟨before, after, h⟩
    exact ⟨before, after, h.symm⟩
  · rintro ⟨before, after, h⟩
    exact ⟨before, after, h.symm⟩

/-- A string that contains a non-empty pattern is not the empty string. -/
theorem ne_empty_of_containsSubstring (s pat : String) (hpat : pat.data ≠ [])
    (h : ContainsSubstring s pat) : s ≠ "" := by
  rintro rfl
  obtain ⟨before, after, h⟩ := h
  have h2 : before ++ pat.data ++ after = [] := h
  simp at h2
  exact hpat h2.2.1

/-- The condition of the status line holds exactly for the hosts that contain both
`.com` and `azureiotcentral`. -/
theorem appHostDefined_iff (appHost : String) :
    appHostDefined appHost = true ↔
      ContainsSubstring appHost ".com" ∧ ContainsSubstring appHost "azureiotcentral" := by
  unfold appHostDefined
  simp only [Bool.and_eq_true, decide_eq_true_eq, indexOf_nonneg_iff, bne_iff_ne, ne_eq]
  constructor
  · rintro ⟨⟨_, h1⟩, h2⟩
    exact ⟨h1, h2⟩
  · rintro ⟨h1, h2⟩
    exact ⟨⟨ne_empty_of_containsSubstring appHost ".com" (by decide) h1, h1⟩, h2⟩

/-- C7: the host status line shows `No application host defined` for exactly the
host strings that do not contain both `.com` and `azureiotcentral` (empty or
not), and `Application host defined` for exactly those that contain both. -/
theorem appHostStatus_iff (appHost : String) :
    (appHostStatus appHost = StatusSpan.error "No application host defined" ↔
      ¬ (ContainsSubstring appHost ".com" ∧ ContainsSubstring appHost "azureiotcentral")) ∧
    (appHostStatus appHost = StatusSpan.success "Application host defined" ↔
      (ContainsSubstring appHost ".com" ∧ ContainsSubstring appHost "azureiotcentral")) := by
  rw [← appHostDefined_iff]
  unfold appHostStatus showStatus
  cases appHostDefined appHost <;> simp

/-- Witness of C7: a non-empty host outside the platform domain, and a platform host. -/
theorem appHostStatus_iff_witness :
    ¬ (ContainsSubstring "contoso.com" ".com" ∧
        ContainsSubstring "contoso.com" "azureiotcentral") ∧
    (ContainsSubstring "myapp.azureiotcentral.com" ".com" ∧
        ContainsSubstring "myapp.azureiotcentral.com" "azureiotcentral") :=
  ⟨(appHostStatus_iff "contoso.com").1.mp (by decide),
   (appHostStatus_iff "myapp.azureiotcentral.com").2.mp (by decide)⟩

/-! ## The view as a state machine -/

/-- A token handler leaves the view as it was or stores a result; it stores one only
when the view holds a client instance. -/
theorem acquireAndStore_view (w : World) (scope : String)
    (store : AuthenticationResult → ViewState → ViewState) :
    (acquireAndStore w scope store).view = w.view ∨
    (w.view.instance_.isSome = true ∧
      ∃ res, (acquireAndStore w scope store).view = store res w.view) := by
  unfold acquireAndStore
  cases hi : w.view.instance_ with
  | none => exact Or.inl rfl
  | some inst =>
    cases ha : accountArg w.view with
    | error err => exact Or.inl rfl
    | ok account =>
      dsimp only
      rcases hb : getAccessTokenForScope inst.msal (ScopeArg.one scope) account w.log
        with ⟨out, log1⟩
      cases out with
      | resolved res => exact Or.inr ⟨rfl, res, rfl⟩
      | rejected e => exact Or.inl rfl
      | pending => exact Or.inl rfl

/-- The handler `updateClient` leaves the view as it was or stores a client instance. -/
theorem updateClient_view (env : Env) (w : World) :
    (updateClient env w).view = w.view ∨
    ∃ inst, (updateClient env w).view = { w.view with instance_ := some inst } := by
  unfold updateClient
  dsimp only
  cases hc : env.newPublicClientApplication w.log
      { clientId := w.view.clientId
        authority := "https://login.microsoftonline.com/" ++ w.view.tenantId
        cacheLocation := "sessionStorage"
        storeAuthStateInCookie := false } with
  | error err => exact Or.inl rfl
  | ok client => exact Or.inr ⟨_, rfl⟩

/-- A fetch writes only the cells of its own hook. -/
theorem fetch_view (env : Env) (w : World) (f : Fetch) :
    (fetch env w f).view.instance_ = w.view.instance_ ∧
    (fetch env w f).view.account = w.view.account ∧
    (fetch env w f).view.central = w.view.central ∧
    (fetch env w f).view.arm = w.view.arm ∧
    (fetch env w f).view.appHost = w.view.appHost := by
  unfold fetch
  cases f <;> exact ⟨rfl, rfl, rfl, rfl, rfl⟩

/-- No action but sign-out removes the client instance. -/
theorem perform_keeps_instance (env : Env) (w : World) (a : Action)
    (hna : a ≠ Action.signOut)
    (h : w.view.instance_.isSome = true) : (perform env w a).view.instance_.isSome = true := by
  cases a with
  | updateClient =>
    rcases updateClient_view env w with hv | ⟨inst, hv⟩
    · simpa [perform, hv] using h
    · simp [perform, hv]
  | getGraphToken =>
    rcases acquireAndStore_view w Scopes.Graph
      (fun res st => { st with account := some { graphToken := res } }) with hv | ⟨_, res, hv⟩
    · simpa [perform, getGraphToken, hv] using h
    · simpa [perform, getGraphToken, hv] using h
  | getCentralToken =>
    rcases acquireAndStore_view w Scopes.Central
      (fun res st => { st with central := some { centralAccessToken := res } })
      with hv | ⟨_, res, hv⟩
    · simpa [perform, getCentralToken, hv] using h
    · simpa [perform, getCentralToken, hv] using h
  | getArmToken =>
    rcases acquireAndStore_view w Scopes.ARM
      (fun res st => { st with arm := some { armAccessToken := res } }) with hv | ⟨_, res, hv⟩
    · simpa [perform, getArmToken, hv] using h
    · simpa [perform, getArmToken, hv] using h
  | fetch f => simpa [perform, (fetch_view env w f).1] using h
  | signOut => exact absurd rfl hna
  | clearStorage => simpa [perform, clearStorage] using h
  | toggle key => simpa [perform, toggle] using h
  | setClientId v => simpa [perform] using h
  | setTenantId v => simpa [perform] using h
  | setInjectAccount c => simpa [perform] using h
  | setAppHost v => simpa [perform] using h
  | setSubscriptionId v => simpa [perform] using h

/-- Every action keeps `tokensNeedInstance`. -/
theorem perform_keeps_tokensNeedInstance (env : Env) (w : World) (a : Action)
    (h : tokensNeedInstance w.view = true) :
    tokensNeedInstance (perform env w a).view = true := by
  cases hi : w.view.instance_ with
  | some inst =>
    by_cases hna : a = Action.signOut
    · subst hna
      simp only [perform, signOut, hi]
      rfl
    · have hk := perform_keeps_instance env w a hna (by simp [hi])
      simp [tokensNeedInstance, hk]
  | none =>
    have h0 : w.view.account = none ∧ w.view.central = none ∧ w.view.arm = none := by
      simpa [tokensNeedInstance, hi, and_assoc] using h
    obtain ⟨hacc, hcen, harm⟩ := h0
    cases a with
    | updateClient =>
      rcases updateClient_view env w with hv | ⟨inst, hv⟩ <;>
        simp [perform, hv, tokensNeedInstance, hi, hacc, hcen, harm]
    | getGraphToken =>
      rcases acquireAndStore_view w Scopes.Graph
        (fun res st => { st with account := some { graphToken := res } }) with hv | ⟨hs, _⟩
      · simp [perform, getGraphToken, hv, tokensNeedInstance, hi, hacc, hcen, harm]
      · simp [hi] at hs
    | getCentralToken =>
      rcases acquireAndStore_view w Scopes.Central
        (fun res st => { st with central := some { centralAccessToken := res } })
        with hv | ⟨hs, _⟩
      · simp [perform, getCentralToken, hv, tokensNeedInstance, hi, hacc, hcen, harm]
      · simp [hi] at hs
    | getArmToken =>
      rcases acquireAndStore_view w Scopes.ARM
        (fun res st => { st with arm := some { armAccessToken := res } }) with hv | ⟨hs, _⟩
      · simp [perform, getArmToken, hv, tokensNeedInstance, hi, hacc, hcen, harm]
      · simp [hi] at hs
    | fetch f =>
      obtain ⟨h1, h2, h3, h4, _⟩ := fetch_view env w f
      simp [perform, tokensNeedInstance, h1, h2, h3, h4, hi, hacc, hcen, harm]
    | signOut => simp [perform, signOut, tokensNeedInstance, hi, hacc, hcen, harm]
    | clearStorage => simp [perform, clearStorage, tokensNeedInstance, hi, hacc, hcen, harm]
    | toggle key => simp [perform, toggle, tokensNeedInstance, hi, hacc, hcen, harm]
    | setClientId v => simp [perform, tokensNeedInstance, hi, hacc, hcen, harm]
    | setTenantId v => simp [perform, tokensNeedInstance, hi, hacc, hcen, harm]
    | setInjectAccount c => simp [perform, tokensNeedInstance, hi, hacc, hcen, harm]
    | setAppHost v => simp [perform, tokensNeedInstance, hi, hacc, hcen, harm]
    | setSubscriptionId v => simp [perform, tokensNeedInstance, hi, hacc, hcen, harm]

/-- In every reachable world the token results were stored under a client instance. -/
theorem reachable_tokensNeedInstance (env : Env) (w : World) (hr : Reachable env w) :
    tokensNeedInstance w.view = true := by
  induction hr with
  | initial => rfl
  | action w w2 a _ hstep ih =>
    unfold step at hstep
    split at hstep
    · exact absurd hstep (by simp)
    · have hw : perform env w a = w2 := Option.some.inj hstep
      rw [← hw]
      exact perform_keeps_tokensNeedInstance env w a ih

/-- C8: in every world reachable from the first render by user actions, when the view
holds no client instance every token-acquisition action and every API-fetch
action is disabled, the fetches guarded by `account` or `arm` included. -/
theorem reachable_no_instance_disabled (env : Env) (w : World) (hr : Reachable env w)
    (hnone : w.view.instance_ = none) (a : Action) (ha : a.isTokenOrFetch = true) :
    disabled w.view a = true := by
  have h0 : w.view.account = none ∧ w.view.central = none ∧ w.view.arm = none := by
    simpa [tokensNeedInstance, hnone, and_assoc] using reachable_tokensNeedInstance env w hr
  obtain ⟨hacc, hcen, harm⟩ := h0
  cases a with
  | fetch f => cases f <;> simp [disabled, hnone, hacc, hcen, harm]
  | getGraphToken => simp [disabled, hnone]
  | getCentralToken => simp [disabled, hnone]
  | getArmToken => simp [disabled, hnone]
  | updateClient => simp [Action.isTokenOrFetch] at ha
  | signOut => simp [Action.isTokenOrFetch] at ha
  | clearStorage => simp [Action.isTokenOrFetch] at ha
  | toggle key => simp [Action.isTokenOrFetch] at ha
  | setClientId v => simp [Action.isTokenOrFetch] at ha
  | setTenantId v => simp [Action.isTokenOrFetch] at ha
  | setInjectAccount c => simp [Action.isTokenOrFetch] at ha
  | setAppHost v => simp [Action.isTokenOrFetch] at ha
  | setSubscriptionId v => simp [Action.isTokenOrFetch] at ha

/-- Witness of C8: after a client id was typed there is still no instance, and
`Fetch Me` (guarded by `account`) is disabled. -/
theorem reachable_no_instance_disabled_witness :
    disabled typedWorld.view (Action.fetch Fetch.me) = true :=
  reachable_no_instance_disabled sampleEnv typedWorld
    (Reachable.action World.initial typedWorld
      (Action.setClientId "f095895b-0529-4839-af23-58eb3aa12a54") Reachable.initial rfl)
    rfl (Action.fetch Fetch.me) rfl

/-! ## The data-plane fetch buttons -/

/-- C9, as the code has it: `Fetch templates` and `Fetch devices` are enabled exactly
when the view holds a client instance and a Central token and the application
host is not the empty string; a host the status line reports as defined meets
that requirement. -/
theorem dataPlane_fetch_enabled_iff (st : ViewState) :
    (disabled st (Action.fetch Fetch.templates) = false ↔
      st.instance_.isSome = true ∧ st.central.isSome = true ∧ st.appHost ≠ "") ∧
    (disabled st (Action.fetch Fetch.devices) = false ↔
      st.instance_.isSome = true ∧ st.central.isSome = true ∧ st.appHost ≠ "") ∧
    (appHostStatus st.appHost = StatusSpan.success "Application host defined" →
      st.appHost ≠ "") := by
  refine ⟨?_, ?_, ?_⟩
  · cases hi : st.instance_ <;> cases hc : st.central <;> simp [disabled, hi, hc]
  · cases hi : st.instance_ <;> cases hc : st.central <;> simp [disabled, hi, hc]
  · intro h
    have hd : appHostDefined st.appHost = true := by
      unfold appHostStatus showStatus at h
      cases hb : appHostDefined st.appHost
      · simp [hb] at h
      · rfl
    exact ne_empty_of_containsSubstring st.appHost ".com" (by decide)
      ((appHostDefined_iff st.appHost).mp hd).1

/-- Witness of C9 (amended): with an instance, a Central token and the host `localhost`
the button is enabled and the three requirements hold. -/
theorem dataPlane_fetch_enabled_iff_witness :
    localhostWorld.view.instance_.isSome = true ∧ localhostWorld.view.central.isSome = true ∧
      localhostWorld.view.appHost ≠ "" :=
  (dataPlane_fetch_enabled_iff localhostWorld.view).1.mp rfl

/-- C9 as stated fails: after creating the instance, acquiring the Central token and
typing the host `localhost`, both data-plane fetch buttons are enabled while
the status line reports `No application host defined`. -/
theorem dataPlane_fetch_enabled_host_not_defined :
    Reachable sampleEnv localhostWorld ∧
    disabled localhostWorld.view (Action.fetch Fetch.templates) = false ∧
    disabled localhostWorld.view (Action.fetch Fetch.devices) = false ∧
    appHostStatus localhostWorld.view.appHost =
      StatusSpan.error "No application host defined" ∧
    appHostStatus localhostWorld.view.appHost ≠
      StatusSpan.success "Application host defined" :=
  ⟨Reachable.action _ localhostWorld (Action.setAppHost "localhost")
      (Reachable.action _ _ Action.getCentralToken
        (Reachable.action World.initial _ Action.updateClient Reachable.initial rfl) rfl) rfl,
    rfl, rfl, by decide, by decide⟩

/-! ## Clearing the storage and signing out -/

/-- The first render holds no instance and no token result. -/
theorem initial_disabled (a : Action) (ha : a.isTokenOrFetch = true) :
    disabled ViewState.initial a = true := by
  cases a with
  | fetch f => cases f <;> rfl
  | getGraphToken => rfl
  | getCentralToken => rfl
  | getArmToken => rfl
  | updateClient => simp [Action.isTokenOrFetch] at ha
  | signOut => simp [Action.isTokenOrFetch] at ha
  | clearStorage => simp [Action.isTokenOrFetch] at ha
  | toggle key => simp [Action.isTokenOrFetch] at ha
  | setClientId v => simp [Action.isTokenOrFetch] at ha
  | setTenantId v => simp [Action.isTokenOrFetch] at ha
  | setInjectAccount c => simp [Action.isTokenOrFetch] at ha
  | setAppHost v => simp [Action.isTokenOrFetch] at ha
  | setSubscriptionId v => simp [Action.isTokenOrFetch] at ha

/-- Only `updateClient` stores a client instance. -/
theorem perform_keeps_no_instance (env : Env) (w : World) (a : Action)
    (hna : a ≠ Action.updateClient)
    (h : w.view.instance_ = none) : (perform env w a).view.instance_ = none := by
  cases a with
  | updateClient => exact absurd rfl hna
  | getGraphToken =>
    rcases acquireAndStore_view w Scopes.Graph
      (fun res st => { st with account := some { graphToken := res } }) with hv | ⟨hs, _⟩
    · simpa [perform, getGraphToken, hv] using h
    · simp [h] at hs
  | getCentralToken =>
    rcases acquireAndStore_view w Scopes.Central
      (fun res st => { st with central := some { centralAccessToken := res } })
      with hv | ⟨hs, _⟩
    · simpa [perform, getCentralToken, hv] using h
    · simp [h] at hs
  | getArmToken =>
    rcases acquireAndStore_view w Scopes.ARM
      (fun res st => { st with arm := some { armAccessToken := res } }) with hv | ⟨hs, _⟩
    · simpa [perform, getArmToken, hv] using h
    · simp [h] at hs
  | fetch f => simpa [perform, (fetch_view env w f).1] using h
  | signOut => simp [perform, signOut, h]
  | clearStorage => simpa [perform, clearStorage] using h
  | toggle key => simpa [perform, toggle] using h
  | setClientId v => simpa [perform] using h
  | setTenantId v => simpa [perform] using h
  | setInjectAccount c => simpa [perform] using h
  | setAppHost v => simpa [perform] using h
  | setSubscriptionId v => simpa [perform] using h

/-- C10, as the code has it: the client instance is destroyed on sign-out but not on
storage clear.  After the sign-out action the library's `logout` has been
called, the view is that of a first render, it holds no client instance, every
token and fetch action is disabled, and the instance stays absent under every
action but `updateClient`.  The storage-clear action clears the local and the
session storage, alerts the user to re-launch the browser and leaves every cell
of the view as it was, so an instance it finds stays and the three token
actions stay enabled. -/
theorem signOut_resets_clearStorage_keeps (env : Env) (w : World) :
    (w.view.instance_.isSome = true →
      (signOut w).log = w.log ++ [Event.logout] ∧
      (signOut w).view = ViewState.initial ∧
      (signOut w).view.instance_ = none ∧
      ∀ a, a.isTokenOrFetch = true → disabled (signOut w).view a = true) ∧
    (∀ a, a ≠ Action.updateClient → w.view.instance_ = none →
      (perform env w a).view.instance_ = none) ∧
    (clearStorage w).view = w.view ∧
    (clearStorage w).log = w.log ++ [Event.localStorageClear, Event.sessionStorageClear,
      Event.alert (AlertArg.text
        "Session and local storage cleared. Please shutdown and re-launch the browser")] ∧
    (w.view.instance_.isSome = true →
      (clearStorage w).view.instance_.isSome = true ∧
      disabled (clearStorage w).view Action.getGraphToken = false ∧
      disabled (clearStorage w).view Action.getCentralToken = false ∧
      disabled (clearStorage w).view Action.getArmToken = false) := by
  refine ⟨?_, ?_, rfl, rfl, ?_⟩
  · intro h
    obtain ⟨inst, hinst⟩ := Option.isSome_iff_exists.mp h
    have hv : (signOut w).view = ViewState.initial := by
      unfold signOut
      rw [hinst]
    have hl : (signOut w).log = w.log ++ [Event.logout] := by
      unfold signOut
      rw [hinst]
    refine ⟨hl, hv, ?_, ?_⟩
    · rw [hv]
      rfl
    · intro a ha
      rw [hv]
      exact initial_disabled a ha
  · intro a hna h
    exact perform_keeps_no_instance env w a hna h
  · intro h
    obtain ⟨inst, hinst⟩ := Option.isSome_iff_exists.mp h
    have hv : (clearStorage w).view = w.view := rfl
    simp [hv, disabled, hinst]

/-- Witness of C10 (amended): signing out after the instance was created gives the
first render, and clearing the storage instead leaves the instance in place. -/
theorem signOut_resets_clearStorage_keeps_witness :
    signedOutWorld.view = ViewState.initial ∧
    disabled signedOutWorld.view Action.getGraphToken = true ∧
    clearedWorld.view.instance_.isSome = true :=
  ⟨((signOut_resets_clearStorage_keeps sampleEnv createdWorld).1 rfl).2.1,
   ((signOut_resets_clearStorage_keeps sampleEnv createdWorld).1 rfl).2.2.2
      Action.getGraphToken rfl,
   ((signOut_resets_clearStorage_keeps sampleEnv createdWorld).2.2.2.2 rfl).1⟩

/-- C10 as stated fails: after creating the instance and clearing the storage the view
still holds the client instance and the three token buttons are enabled. -/
theorem instance_survives_clearStorage :
    Reachable sampleEnv clearedWorld ∧
    clearedWorld.view.instance_.isSome = true ∧
    disabled clearedWorld.view Action.getGraphToken = false ∧
    disabled clearedWorld.view Action.getCentralToken = false ∧
    disabled clearedWorld.view Action.getArmToken = false :=
  ⟨Reachable.action createdWorld clearedWorld Action.clearStorage
      (Reachable.action World.initial createdWorld Action.updateClient Reachable.initial rfl)
      rfl,
    rfl, rfl, rfl, rfl⟩

end IotCentralAadApp
